import Mathlib

/-!
Shallow embedding of the Tensor core of the cetana repository
(src/src/tensor/mod.rs) and verification of its specification claims.

Modelling conventions:
* Rust machine integers (usize, u32, u8) are Nat; where the source casts
  with `as u32`, the model takes the value modulo 2^32.
* f32 values are modelled abstractly: the element type is a parameter
  with an explicit record of the scalar operations the source uses,
  so theorems about element placement hold for any interpretation of
  the arithmetic.  For the byte-level serialization, an element is its
  32-bit pattern, a Nat below 2^32, since serialization copies bytes.
* Fallible Rust code returning MlResult is an RResult; a Rust panic
  (out-of-bounds index, slice chunks with chunk size zero) is the
  distinguished outcome RResult.panic.
* An Arc allocation is modelled by a handle carrying a fresh numeric id
  supplied by the caller, so pointer identity of backend handles is
  observable.
-/

namespace Cetana

/-- Device kinds from src backend declarations (DeviceType). -/
inductive DeviceType where
  | Cpu
  | Cuda
  | Mps
  | Vulkan
deriving DecidableEq, Repr

/-- TensorError from src/src/tensor/mod.rs. -/
inductive TensorError where
  | InvalidShape (expected got : List Nat)
  | InvalidDataLength (expected got : Nat)
  | InvalidOperation (op reason : String)
  | InvalidAxis (axis : Nat) (shape : List Nat)
  | MatrixMultiplicationError (leftShape rightShape : List Nat)
  | InvalidBackend (backend : DeviceType)
deriving DecidableEq, Repr

/-- Modelled from the spec: the MlError wrapper type is not under src/;
only the TensorError variant and a string conversion are observable from
the tensor module, plus a distinguishable backend-construction failure
(spec 4.2). -/
inductive MlError where
  | TensorError (e : TensorError)
  | BackendError (s : String)
  | StringError (s : String)
deriving DecidableEq, Repr

/-- Outcome of a Rust call: Ok, Err, or a panic (unwind). -/
inductive RResult (α : Type) where
  | ok (a : α)
  | err (e : MlError)
  | panic
deriving DecidableEq, Repr

/-- A backend handle: the device family of the constructed backend plus
the identity of the Arc allocation that holds it. -/
structure BackendHandle where
  kind : DeviceType
  id : Nat
deriving DecidableEq, Repr

/-- Modelled from the spec: the DeviceManager and the backend
constructors are not under src/.  The environment records the resolved
default device (spec 4.1: probing is idempotent within a run) and
whether each accelerated backend's constructor succeeds (spec 4.2);
CpuBackend construction is the guaranteed fallback and always succeeds
(spec 4.1/7). -/
structure Env where
  defaultDevice : DeviceType
  cudaNewOk : Bool
  vulkanNewOk : Bool
deriving DecidableEq, Repr

/-- The Tensor value type: flat data buffer, shape, backend handle. -/
structure Tensor (α : Type) where
  data : List α
  shape : List Nat
  backend : BackendHandle
deriving DecidableEq, Repr

/-- The scalar operations of f32 that the tensor module uses, kept
abstract so that placement theorems hold for any interpretation. -/
structure FOps (α : Type) where
  add : α → α → α
  sub : α → α → α
  mul : α → α → α
  div : α → α → α
  neg : α → α
  fexp : α → α
  fsqrt : α → α
  ln : α → α
  powf : α → α → α
  clampf : α → α → α → α
  fmax : α → α → α
  zero : α
  negInf : α

/-- Backend selection performed inside Tensor::from_vec (lines 152-161):
Cpu, Cuda and Mps branches construct a CpuBackend; the Vulkan branch
constructs a VulkanBackend and propagates its failure with the ? operator
(no fallback). -/
def selectFromVec (env : Env) (fid : Nat) : RResult BackendHandle :=
  match env.defaultDevice with
  | DeviceType.Cpu => RResult.ok ⟨DeviceType.Cpu, fid⟩
  | DeviceType.Cuda => RResult.ok ⟨DeviceType.Cpu, fid⟩
  | DeviceType.Mps => RResult.ok ⟨DeviceType.Cpu, fid⟩
  | DeviceType.Vulkan =>
      if env.vulkanNewOk then RResult.ok ⟨DeviceType.Vulkan, fid⟩
      else RResult.err (MlError.BackendError "vulkan backend construction failed")

/-- Backend selection performed inside Tensor::new (lines 98-134): the
accelerated branches fall back to CpuBackend::new on failure; the default
branch uses CpuBackend.  CpuBackend::new is the guaranteed fallback. -/
def selectNew (env : Env) (fid : Nat) : BackendHandle :=
  match env.defaultDevice with
  | DeviceType.Cuda =>
      if env.cudaNewOk then ⟨DeviceType.Cuda, fid⟩ else ⟨DeviceType.Cpu, fid⟩
  | DeviceType.Vulkan =>
      if env.vulkanNewOk then ⟨DeviceType.Vulkan, fid⟩ else ⟨DeviceType.Cpu, fid⟩
  | _ => ⟨DeviceType.Cpu, fid⟩

/-- Tensor::from_vec (lines 143-168): validates that the data length
equals the product of the shape, then selects a backend. -/
def fromVec {α : Type} (env : Env) (fid : Nat) (data : List α) (shape : List Nat) :
    RResult (Tensor α) :=
  if data.length ≠ shape.prod then
    RResult.err (MlError.TensorError (TensorError.InvalidDataLength shape.prod data.length))
  else
    match selectFromVec env fid with
    | RResult.ok b => RResult.ok ⟨data, shape, b⟩
    | RResult.err e => RResult.err e
    | RResult.panic => RResult.panic

/-- Tensor::new (lines 91-141): infers the shape [rows, first-row length]
(indexing data[0] panics on an empty outer vector), flattens the rows
without any raggedness check, and selects a backend with CPU fallback. -/
def newT {α : Type} (env : Env) (fid : Nat) (rows : List (List α)) :
    RResult (Tensor α) :=
  match rows with
  | [] => RResult.panic
  | r0 :: _ =>
      RResult.ok ⟨rows.flatten, [rows.length, r0.length], selectNew env fid⟩

/-- Modelled from the spec (4.2): the CpuBackend numeric kernels are not
under src/; elementwise binary kernels combine equal-length buffers
pairwise. -/
def backendZip {α : Type} (f : α → α → α) (a b : List α) : List α :=
  List.zipWith f a b

/-- Modelled from the spec (4.2): standard dense row-major matrix
product, a is m x k, b is k x n, result buffer of length m * n. -/
def backendMatmul {α : Type} (F : FOps α) (a b : List α) (m k n : Nat) : List α :=
  (List.range (m * n)).map fun p =>
    (List.range k).foldl
      (fun acc l => F.add acc (F.mul (a.getD (p / n * k + l) F.zero) (b.getD (l * n + p % n) F.zero)))
      F.zero

/-- Tensor::matmul (lines 178-194): compares self.shape[1] with
other.shape[0] (panicking when those indices do not exist), reports a
MatrixMultiplicationError on mismatch, then reads other.shape[1]
(panicking when the rhs has rank 1) and wraps the backend result. -/
def matmulT {α : Type} (F : FOps α) (env : Env) (fid : Nat) (a b : Tensor α) :
    RResult (Tensor α) :=
  if a.shape.length < 2 ∨ b.shape.length < 1 then RResult.panic
  else if a.shape.getD 1 0 ≠ b.shape.getD 0 0 then
    RResult.err (MlError.TensorError (TensorError.MatrixMultiplicationError a.shape b.shape))
  else if b.shape.length < 2 then RResult.panic
  else
    let m := a.shape.getD 0 0
    let n := b.shape.getD 1 0
    let k := a.shape.getD 1 0
    fromVec env fid (backendMatmul F a.data b.data m k n) [m, n]

/-- The result buffer of the transpose loop (lines 204-211): the loop
writes result[j*m+i] = data[i*n+j] into a zero-filled buffer of
data.length entries, which at position p < n*m is data[(p % m)*n + p/m];
positions at or above n*m keep the fill value. -/
def transData {α : Type} (z : α) (d : List α) (m n : Nat) : List α :=
  (List.range d.length).map fun p =>
    if p < n * m then d.getD (p % m * n + p / m) z else z

/-- Tensor::transpose (lines 196-214): rank check, then the index-swap
loop (which panics when the buffer is shorter than n*m, as the loop then
indexes out of bounds), then from_vec with the swapped shape. -/
def transposeT {α : Type} (F : FOps α) (env : Env) (fid : Nat) (t : Tensor α) :
    RResult (Tensor α) :=
  if t.shape.length ≠ 2 then
    RResult.err (MlError.TensorError (TensorError.InvalidShape [2] t.shape))
  else if t.data.length < t.shape.getD 1 0 * t.shape.getD 0 0 then RResult.panic
  else
    fromVec env fid (transData F.zero t.data (t.shape.getD 0 0) (t.shape.getD 1 0))
      [t.shape.getD 1 0, t.shape.getD 0 0]

/-- Tensor::add (lines 216-238).  The broadcast branch iterates
result.chunks_mut(features), which panics when features = 0, and reads
other.data[j] for each in-chunk offset j, which panics when other.data
is shorter than the largest offset reached; chunk offsets satisfy
result[i*features + j] = self.data[i*features + j] + other.data[j],
i.e. position p receives self.data[p] + other.data[p % features]. -/
def addT {α : Type} (F : FOps α) (env : Env) (fid : Nat) (a b : Tensor α) :
    RResult (Tensor α) :=
  if a.shape.length = 2 ∧ b.shape.length = 1 ∧ a.shape.getD 1 0 = b.shape.getD 0 0 then
    if a.shape.getD 1 0 = 0 then RResult.panic
    else if 0 < a.data.length ∧ b.data.length < min (a.shape.getD 1 0) a.data.length then
      RResult.panic
    else
      fromVec env fid
        ((List.range a.data.length).map fun p =>
          F.add (a.data.getD p F.zero) (b.data.getD (p % a.shape.getD 1 0) F.zero))
        a.shape
  else if a.shape ≠ b.shape then
    RResult.err (MlError.TensorError (TensorError.InvalidShape a.shape b.shape))
  else fromVec env fid (backendZip F.add a.data b.data) a.shape

/-- Tensor::sub (lines 240-262).  The broadcast branch runs explicit
nested loops over batch_size * features positions, writing
result[i*features + j] = self.data[i*features + j] - other.data[j] into a
zero-filled buffer of data.length entries; it panics when a read or
write index falls outside its buffer. -/
def subT {α : Type} (F : FOps α) (env : Env) (fid : Nat) (a b : Tensor α) :
    RResult (Tensor α) :=
  if a.shape.length = 2 ∧ b.shape.length = 1 ∧ a.shape.getD 1 0 = b.shape.getD 0 0 then
    if 0 < a.shape.getD 0 0 * a.shape.getD 1 0 ∧
        (a.data.length < a.shape.getD 0 0 * a.shape.getD 1 0 ∨
          b.data.length < a.shape.getD 1 0) then
      RResult.panic
    else
      fromVec env fid
        ((List.range a.data.length).map fun p =>
          if p < a.shape.getD 0 0 * a.shape.getD 1 0 then
            F.sub (a.data.getD p F.zero) (b.data.getD (p % a.shape.getD 1 0) F.zero)
          else F.zero)
        a.shape
  else if a.shape ≠ b.shape then
    RResult.err (MlError.TensorError (TensorError.InvalidShape a.shape b.shape))
  else fromVec env fid (backendZip F.sub a.data b.data) a.shape

/-- Tensor::mul_scalar (lines 264-267). -/
def mulScalarT {α : Type} (F : FOps α) (env : Env) (fid : Nat) (t : Tensor α) (s : α) :
    RResult (Tensor α) :=
  fromVec env fid (t.data.map fun x => F.mul x s) t.shape

/-- Tensor::sum (lines 269-311): axis bound check, 2-D check, then a
column or row reduction; the row branch iterates data.chunks(cols),
which panics when cols = 0.  Out-of-range reads of an invalid buffer
are totalized with the zero fill; they are unreachable for tensors
satisfying the length invariant. -/
def sumT {α : Type} (F : FOps α) (env : Env) (fid : Nat) (t : Tensor α) (axis : Nat) :
    RResult (Tensor α) :=
  if t.shape.length ≤ axis then
    RResult.err (MlError.TensorError (TensorError.InvalidAxis axis t.shape))
  else if t.shape.length ≠ 2 then
    RResult.err (MlError.TensorError (TensorError.InvalidOperation "sum"
      "Sum operation currently only supports 2D tensors"))
  else
    match axis with
    | 0 =>
        fromVec env fid
          ((List.range (t.shape.getD 1 0)).map fun j =>
            (List.range (t.shape.getD 0 0)).foldl
              (fun s i => F.add s (t.data.getD (i * t.shape.getD 1 0 + j) F.zero)) F.zero)
          [1, t.shape.getD 1 0]
    | 1 =>
        if t.shape.getD 1 0 = 0 then RResult.panic
        else
          fromVec env fid
            ((List.range (t.shape.getD 0 0)).map fun i =>
              (List.range (t.shape.getD 1 0)).foldl
                (fun s j => F.add s (t.data.getD (i * t.shape.getD 1 0 + j) F.zero)) F.zero)
            [t.shape.getD 0 0, 1]
    | _ => RResult.err (MlError.TensorError (TensorError.InvalidAxis axis t.shape))

/-- Tensor::reshape (lines 313-329): validates the total length and
reuses the data buffer and the backend handle of the receiver. -/
def reshapeT {α : Type} (t : Tensor α) (newShape : List Nat) : RResult (Tensor α) :=
  if newShape.prod ≠ t.data.length then
    RResult.err (MlError.TensorError (TensorError.InvalidShape newShape [t.data.length]))
  else RResult.ok ⟨t.data, newShape, t.backend⟩

/-- Tensor::clip (lines 331-335). -/
def clipT {α : Type} (F : FOps α) (env : Env) (fid : Nat) (t : Tensor α) (lo hi : α) :
    RResult (Tensor α) :=
  fromVec env fid (t.data.map fun x => F.clampf x lo hi) t.shape

/-- Tensor::log (lines 337-341). -/
def logT {α : Type} (F : FOps α) (env : Env) (fid : Nat) (t : Tensor α) :
    RResult (Tensor α) :=
  fromVec env fid (t.data.map F.ln) t.shape

/-- Tensor::neg (lines 343-347). -/
def negT {α : Type} (F : FOps α) (env : Env) (fid : Nat) (t : Tensor α) :
    RResult (Tensor α) :=
  fromVec env fid (t.data.map F.neg) t.shape

/-- Tensor::mul, elementwise (lines 349-359). -/
def mulT {α : Type} (F : FOps α) (env : Env) (fid : Nat) (a b : Tensor α) :
    RResult (Tensor α) :=
  if a.shape ≠ b.shape then
    RResult.err (MlError.TensorError (TensorError.InvalidShape a.shape b.shape))
  else fromVec env fid (backendZip F.mul a.data b.data) a.shape

/-- Tensor::add_scalar (lines 361-365). -/
def addScalarT {α : Type} (F : FOps α) (env : Env) (fid : Nat) (t : Tensor α) (s : α) :
    RResult (Tensor α) :=
  fromVec env fid (t.data.map fun x => F.add x s) t.shape

/-- Tensor::exp (lines 378-381): backend elementwise exp (spec 4.2). -/
def expT {α : Type} (F : FOps α) (env : Env) (fid : Nat) (t : Tensor α) :
    RResult (Tensor α) :=
  fromVec env fid (t.data.map F.fexp) t.shape

/-- Tensor::div, elementwise (lines 383-393). -/
def divT {α : Type} (F : FOps α) (env : Env) (fid : Nat) (a b : Tensor α) :
    RResult (Tensor α) :=
  if a.shape ≠ b.shape then
    RResult.err (MlError.TensorError (TensorError.InvalidShape a.shape b.shape))
  else fromVec env fid (backendZip F.div a.data b.data) a.shape

/-- Tensor::pow (lines 395-398): backend elementwise pow (spec 4.2). -/
def powT {α : Type} (F : FOps α) (env : Env) (fid : Nat) (t : Tensor α) (p : α) :
    RResult (Tensor α) :=
  fromVec env fid (t.data.map fun x => F.powf x p) t.shape

/-- Tensor::sqrt (lines 400-403): backend elementwise sqrt (spec 4.2). -/
def sqrtT {α : Type} (F : FOps α) (env : Env) (fid : Nat) (t : Tensor α) :
    RResult (Tensor α) :=
  fromVec env fid (t.data.map F.fsqrt) t.shape

/-- Tensor::max_along_axis (lines 409-449): axis bound check, 2-D check,
then a column or row maximum starting from f32::NEG_INFINITY. -/
def maxAlongAxisT {α : Type} (F : FOps α) (env : Env) (fid : Nat) (t : Tensor α) (axis : Nat) :
    RResult (Tensor α) :=
  if t.shape.length ≤ axis then
    RResult.err (MlError.TensorError (TensorError.InvalidAxis axis t.shape))
  else if t.shape.length ≠ 2 then
    RResult.err (MlError.TensorError (TensorError.InvalidOperation "max_along_axis"
      "Operation currently only supports 2D tensors"))
  else
    match axis with
    | 0 =>
        fromVec env fid
          ((List.range (t.shape.getD 1 0)).map fun j =>
            (List.range (t.shape.getD 0 0)).foldl
              (fun mx i => F.fmax mx (t.data.getD (i * t.shape.getD 1 0 + j) F.zero)) F.negInf)
          [1, t.shape.getD 1 0]
    | 1 =>
        fromVec env fid
          ((List.range (t.shape.getD 0 0)).map fun i =>
            (List.range (t.shape.getD 1 0)).foldl
              (fun mx j => F.fmax mx (t.data.getD (i * t.shape.getD 1 0 + j) F.zero)) F.negInf)
          [t.shape.getD 0 0, 1]
    | _ => RResult.err (MlError.TensorError (TensorError.InvalidAxis axis t.shape))

/-- Little-endian 4-byte encoding of a 32-bit value, as produced by
to_le_bytes; an as-u32 cast is absorbed by the byte-level truncation. -/
def natToLe4 (x : Nat) : List Nat :=
  [x % 256, x / 256 % 256, x / 65536 % 256, x / 16777216 % 256]

/-- Little-endian 4-byte decoding, as performed by from_le_bytes. -/
def leToNat4 (bs : List Nat) : Nat :=
  bs.getD 0 0 + 256 * bs.getD 1 0 + 65536 * bs.getD 2 0 + 16777216 * bs.getD 3 0

/-- Serialize for Tensor (lines 453-472): shape length as u32 LE, each
dimension as u32 LE, then each element's 4 little-endian bytes.  An
element is its 32-bit pattern (a Nat below 2^32). -/
def serializeT (t : Tensor Nat) : List Nat :=
  natToLe4 t.shape.length ++ (t.shape.map natToLe4).flatten ++ (t.data.map natToLe4).flatten

/-- The dimension-reading loop of deserialize (lines 486-494): reads r
32-bit values, failing when fewer than 4 bytes remain; returns the
dimensions and the remaining suffix.  The running cursor of the source
is represented by the remaining suffix of the byte string. -/
def readShapeAux : Nat → List Nat → Option (List Nat × List Nat)
  | 0, rest => some ([], rest)
  | r + 1, rest =>
      if rest.length < 4 then none
      else
        match readShapeAux r (rest.drop 4) with
        | some (dims, rest2) => some (leToNat4 (rest.take 4) :: dims, rest2)
        | none => none

/-- The data-reading loop of deserialize (lines 497-502): greedily reads
complete 4-byte words while at least 4 bytes remain, ignoring a shorter
tail. -/
def readWords : List Nat → List Nat
  | a :: b :: c :: d :: rest => leToNat4 [a, b, c, d] :: readWords rest
  | _ => []

/-- Deserialize for Tensor (lines 474-506): length-checked header read,
dimension loop, greedy word read, then Tensor::from_vec. -/
def deserializeT (env : Env) (fid : Nat) (bytes : List Nat) : RResult (Tensor Nat) :=
  if bytes.length < 4 then RResult.err (MlError.StringError "Invalid tensor data")
  else
    match readShapeAux (leToNat4 (bytes.take 4)) (bytes.drop 4) with
    | none => RResult.err (MlError.StringError "Invalid tensor data")
    | some (shape, rest) => fromVec env fid (readWords rest) shape

/-- Whether the device switch inside from_vec can construct its backend
in this environment. -/
def fromVecSucceeds (env : Env) : Bool :=
  match env.defaultDevice with
  | DeviceType.Vulkan => env.vulkanNewOk
  | _ => true

/-- The handle from_vec constructs when it succeeds. -/
def fromVecHandle (env : Env) (fid : Nat) : BackendHandle :=
  match env.defaultDevice with
  | DeviceType.Vulkan => ⟨DeviceType.Vulkan, fid⟩
  | _ => ⟨DeviceType.Cpu, fid⟩

/-- A concrete scalar-operation record over Int for concrete witnesses;
the transcendental slots are arbitrary total functions, which the
placement theorems never interpret. -/
def FInt : FOps Int where
  add := fun a b => a + b
  sub := fun a b => a - b
  mul := fun a b => a * b
  div := fun a b => a / b
  neg := fun a => -a
  fexp := fun a => a
  fsqrt := fun a => a
  ln := fun a => a
  powf := fun a _ => a
  clampf := fun x lo hi => min (max x lo) hi
  fmax := fun a b => max a b
  zero := 0
  negInf := -1

/-- The Cpu environment used by concrete witnesses. -/
def envCpu : Env := ⟨DeviceType.Cpu, true, true⟩

/-- An environment whose resolved default device is Vulkan and whose
VulkanBackend constructor fails. -/
def envVulkanBad : Env := ⟨DeviceType.Vulkan, true, false⟩

/-- The length invariant of the data model: the flat buffer has exactly
product(shape) elements. -/
abbrev tensorInv {α : Type} (t : Tensor α) : Prop :=
  t.data.length = t.shape.prod

example : matmulT FInt envCpu 1 ⟨[1, 2, 3, 4], [2, 2], ⟨DeviceType.Cpu, 0⟩⟩
    ⟨[5, 6, 7, 8], [2, 2], ⟨DeviceType.Cpu, 0⟩⟩ =
    RResult.ok ⟨[19, 22, 43, 50], [2, 2], ⟨DeviceType.Cpu, 1⟩⟩ := by decide

example : transposeT FInt envCpu 1 ⟨[1, 2, 3, 4], [2, 2], ⟨DeviceType.Cpu, 0⟩⟩ =
    RResult.ok ⟨[1, 3, 2, 4], [2, 2], ⟨DeviceType.Cpu, 1⟩⟩ := by decide

example : addT FInt envCpu 1 ⟨[1, 2, 3, 4], [2, 2], ⟨DeviceType.Cpu, 0⟩⟩
    ⟨[10, 20], [2], ⟨DeviceType.Cpu, 0⟩⟩ =
    RResult.ok ⟨[11, 22, 13, 24], [2, 2], ⟨DeviceType.Cpu, 1⟩⟩ := by decide

example : addT FInt envCpu 1 (⟨[], [1, 0], ⟨DeviceType.Cpu, 0⟩⟩ : Tensor Int)
    ⟨[], [0], ⟨DeviceType.Cpu, 0⟩⟩ = RResult.panic := by decide

example : sumT FInt envCpu 1 ⟨[1, 2, 3, 4], [2, 2], ⟨DeviceType.Cpu, 0⟩⟩ 0 =
    RResult.ok ⟨[4, 6], [1, 2], ⟨DeviceType.Cpu, 1⟩⟩ := by decide

example : sumT FInt envCpu 1 ⟨[1, 2, 3, 4], [2, 2], ⟨DeviceType.Cpu, 0⟩⟩ 1 =
    RResult.ok ⟨[3, 7], [2, 1], ⟨DeviceType.Cpu, 1⟩⟩ := by decide

example :
    deserializeT envCpu 1 (serializeT ⟨[77, 5], [2, 1], ⟨DeviceType.Cpu, 0⟩⟩) =
    RResult.ok ⟨[77, 5], [2, 1], ⟨DeviceType.Cpu, 1⟩⟩ := by decide

theorem selectFromVec_of_succeeds (env : Env) (fid : Nat)
    (h : fromVecSucceeds env = true) :
    selectFromVec env fid = RResult.ok (fromVecHandle env fid) := by
  unfold fromVecSucceeds at h
  unfold selectFromVec fromVecHandle
  cases hd : env.defaultDevice <;> simp [hd] at h ⊢ <;> simp [h]

theorem fromVec_ok_spec {α : Type} {env : Env} {fid : Nat} {d : List α}
    {s : List Nat} {u : Tensor α} (h : fromVec env fid d s = RResult.ok u) :
    u.data = d ∧ u.shape = s ∧ u.data.length = s.prod ∧
      selectFromVec env fid = RResult.ok u.backend := by
  unfold fromVec at h
  split at h
  · exact absurd h (by simp)
  · next hlen =>
      push_neg at hlen
      cases hsel : selectFromVec env fid with
      | ok b => rw [hsel] at h; cases h; exact ⟨rfl, rfl, hlen, rfl⟩
      | err e => rw [hsel] at h; cases h
      | panic => rw [hsel] at h; cases h

theorem fromVec_ok_inv {α : Type} {env : Env} {fid : Nat} {d : List α}
    {s : List Nat} {u : Tensor α} (h : fromVec env fid d s = RResult.ok u) :
    u.data.length = u.shape.prod := by
  obtain ⟨_, hs, hl, _⟩ := fromVec_ok_spec h
  rw [hs]; exact hl

theorem fromVec_complete {α : Type} (env : Env) (fid : Nat) (d : List α)
    (s : List Nat) (hlen : d.length = s.prod) (henv : fromVecSucceeds env = true) :
    fromVec env fid d s = RResult.ok ⟨d, s, fromVecHandle env fid⟩ := by
  unfold fromVec
  rw [selectFromVec_of_succeeds env fid henv]
  simp [hlen]

theorem getD_map_range {α : Type} (k p : Nat) (f : Nat → α) (z : α) :
    (((List.range k).map f).getD p z) = if p < k then f p else z := by
  by_cases hp : p < k
  · rw [List.getD_eq_getElem _ _ (by simpa using hp)]
    simp [hp]
  · rw [List.getD_eq_default _ _ (by simpa using Nat.le_of_not_lt hp)]
    simp [hp]

theorem transData_length {α : Type} (z : α) (d : List α) (m n : Nat) :
    (transData z d m n).length = d.length := by
  simp [transData]

theorem transData_getD {α : Type} (z : α) (d : List α) (m n p : Nat)
    (hd : d.length = m * n) (hp : p < m * n) :
    (transData z d m n).getD p z = d.getD (p % m * n + p / m) z := by
  unfold transData
  rw [getD_map_range]
  rw [hd]
  rw [if_pos (show p < m * n from hp)]
  rw [if_pos (show p < n * m by rw [Nat.mul_comm n m]; exact hp)]

theorem transData_transData {α : Type} (z : α) (d : List α) (m n : Nat)
    (hd : d.length = m * n) :
    transData z (transData z d m n) n m = d := by
  have hlen : (transData z (transData z d m n) n m).length = d.length := by
    rw [transData_length, transData_length]
  apply List.ext_getElem hlen
  intro p hp1 hp2
  have hp : p < m * n := by rw [← hd]; exact hp2
  have hm : 0 < m := by
    rcases Nat.eq_zero_or_pos m with h0 | h0
    · subst h0; simp at hp
    · exact h0
  have hn : 0 < n := by
    rcases Nat.eq_zero_or_pos n with h0 | h0
    · subst h0; simp at hp
    · exact h0
  have hpnm : p < n * m := by rw [Nat.mul_comm n m]; exact hp
  have hA : (transData z d m n).length = n * m := by
    rw [transData_length, hd, Nat.mul_comm]
  have h1 : (transData z (transData z d m n) n m).getD p z =
      (transData z d m n).getD (p % n * m + p / n) z :=
    transData_getD z (transData z d m n) n m p hA hpnm
  have hdivn : p / n < m :=
    Nat.div_lt_of_lt_mul (by rw [Nat.mul_comm]; exact hp)
  have hmodn : p % n < n := Nat.mod_lt _ hn
  have hidx : p % n * m + p / n < m * n := by
    calc p % n * m + p / n < p % n * m + m := by omega
    _ = (p % n + 1) * m := by ring
    _ ≤ n * m := Nat.mul_le_mul_right m (by omega)
    _ = m * n := Nat.mul_comm n m
  have h2 : (transData z d m n).getD (p % n * m + p / n) z =
      d.getD ((p % n * m + p / n) % m * n + (p % n * m + p / n) / m) z :=
    transData_getD z d m n _ hd hidx
  have hmod : (p % n * m + p / n) % m = p / n := by
    rw [Nat.mul_comm (p % n) m, Nat.mul_add_mod]
    exact Nat.mod_eq_of_lt hdivn
  have hdiv : (p % n * m + p / n) / m = p % n := by
    rw [Nat.mul_comm (p % n) m, Nat.mul_add_div hm, Nat.div_eq_of_lt hdivn]
    omega
  have h3 : p / n * n + p % n = p := by
    rw [Nat.mul_comm]
    exact Nat.div_add_mod p n
  have hfinal : (transData z (transData z d m n) n m).getD p z = d.getD p z := by
    rw [h1, h2, hmod, hdiv, h3]
  rw [List.getD_eq_getElem _ _ hp1, List.getD_eq_getElem _ _ hp2] at hfinal
  exact hfinal

example : selectFromVec ⟨DeviceType.Cpu, true, true⟩ 0 = RResult.ok ⟨DeviceType.Cpu, 0⟩ := by decide

example : fromVec (α := Int) ⟨DeviceType.Cpu, true, true⟩ 0 [1, 2] [2] =
    RResult.ok ⟨[1, 2], [2], ⟨DeviceType.Cpu, 0⟩⟩ := by decide

example : newT (α := Int) ⟨DeviceType.Cpu, true, true⟩ 0 [[1, 2], [3]] =
    RResult.ok ⟨[1, 2, 3], [2, 2], ⟨DeviceType.Cpu, 0⟩⟩ := by decide


theorem natToLe4_length (x : Nat) : (natToLe4 x).length = 4 := rfl

theorem leToNat4_natToLe4 (x : Nat) (hx : x < 4294967296) :
    leToNat4 (natToLe4 x) = x := by
  unfold natToLe4 leToNat4
  simp [List.getD]
  omega

theorem flatten_map_natToLe4_length (l : List Nat) :
    ((l.map natToLe4).flatten).length = 4 * l.length := by
  induction l with
  | nil => simp
  | cons a l ih => simp [ih, natToLe4_length]; omega

theorem readWords_flatten_append (l : List Nat) (hl : ∀ x ∈ l, x < 4294967296)
    (extra : List Nat) (hextra : extra.length < 4) :
    readWords ((l.map natToLe4).flatten ++ extra) = l := by
  induction l with
  | nil =>
      simp only [List.map_nil, List.flatten_nil, List.nil_append]
      match extra, hextra with
      | [], _ => rfl
      | [_], _ => rfl
      | [_, _], _ => rfl
      | [_, _, _], _ => rfl
  | cons a l ih =>
      have ha : a < 4294967296 := hl a (by simp)
      simp only [List.map_cons, List.flatten_cons, List.append_assoc]
      show readWords (natToLe4 a ++ ((l.map natToLe4).flatten ++ extra)) = a :: l
      unfold natToLe4
      show leToNat4 [a % 256, a / 256 % 256, a / 65536 % 256, a / 16777216 % 256] ::
        readWords ((l.map natToLe4).flatten ++ extra) = a :: l
      rw [ih (fun x hx => hl x (by simp [hx]))]
      have : leToNat4 [a % 256, a / 256 % 256, a / 65536 % 256, a / 16777216 % 256] = a := by
        have := leToNat4_natToLe4 a ha
        unfold natToLe4 at this
        exact this
      rw [this]

theorem readWords_flatten (l : List Nat) (hl : ∀ x ∈ l, x < 4294967296) :
    readWords ((l.map natToLe4).flatten) = l := by
  have := readWords_flatten_append l hl [] (by simp)
  simpa using this

theorem readShapeAux_flatten (dims : List Nat) (hd : ∀ x ∈ dims, x < 4294967296)
    (rest : List Nat) :
    readShapeAux dims.length ((dims.map natToLe4).flatten ++ rest) = some (dims, rest) := by
  induction dims with
  | nil => simp [readShapeAux]
  | cons a dims ih =>
      have ha : a < 4294967296 := hd a (by simp)
      simp only [List.map_cons, List.flatten_cons, List.append_assoc, List.length_cons]
      unfold readShapeAux
      have hlen : (natToLe4 a ++ ((dims.map natToLe4).flatten ++ rest)).length =
          4 + ((dims.map natToLe4).flatten ++ rest).length := by
        simp [natToLe4_length]
      rw [if_neg (by rw [hlen]; omega)]
      have htake : (natToLe4 a ++ ((dims.map natToLe4).flatten ++ rest)).take 4 = natToLe4 a := by
        rw [List.take_append_of_le_length (by rw [natToLe4_length])]
        simp [natToLe4]
      have hdrop : (natToLe4 a ++ ((dims.map natToLe4).flatten ++ rest)).drop 4 =
          (dims.map natToLe4).flatten ++ rest := by
        rw [List.drop_append_of_le_length (by rw [natToLe4_length])]
        simp [natToLe4]
      rw [htake, hdrop, ih (fun x hx => hd x (by simp [hx]))]
      rw [leToNat4_natToLe4 a ha]

theorem readShapeAux_short (r : Nat) (bs : List Nat) (h : bs.length < 4 * r) :
    readShapeAux r bs = none := by
  induction r generalizing bs with
  | zero => omega
  | succ r ih =>
      unfold readShapeAux
      by_cases h4 : bs.length < 4
      · rw [if_pos h4]
      · rw [if_neg h4]
        rw [ih (bs.drop 4) (by simp; omega)]


theorem readWords_length (bs : List Nat) : (readWords bs).length = bs.length / 4 := by
  match bs with
  | a :: b :: c :: d :: rest =>
      show (leToNat4 [a, b, c, d] :: readWords rest).length = (rest.length + 4) / 4
      rw [List.length_cons, readWords_length rest]
      omega
  | [] => rfl
  | [_] => simp [readWords]
  | [_, _] => simp [readWords]
  | [_, _, _] => simp [readWords]

theorem readWords_append_small (bs extra : List Nat) (hb : bs.length % 4 = 0)
    (he : extra.length < 4) : readWords (bs ++ extra) = readWords bs := by
  match bs with
  | a :: b :: c :: d :: rest =>
      show leToNat4 [a, b, c, d] :: readWords (rest ++ extra) =
        leToNat4 [a, b, c, d] :: readWords rest
      rw [readWords_append_small rest extra (by simp at hb; omega) he]
  | [] =>
      show readWords extra = readWords []
      match extra, he with
      | [], _ => rfl
      | [_], _ => rfl
      | [_, _], _ => rfl
      | [_, _, _], _ => rfl
  | [_] => simp at hb
  | [_, _] => simp at hb
  | [_, _, _] => simp at hb

theorem flatten_length_rect {α : Type} (rows : List (List α)) (c : Nat)
    (h : ∀ r ∈ rows, r.length = c) : rows.flatten.length = rows.length * c := by
  induction rows with
  | nil => simp
  | cons r rows ih =>
      have hr : r.length = c := h r (by simp)
      simp only [List.flatten_cons, List.length_append, List.length_cons]
      rw [ih (fun x hx => h x (by simp [hx])), hr]
      ring

theorem selectFromVec_ne_panic (env : Env) (fid : Nat) :
    selectFromVec env fid ≠ RResult.panic := by
  unfold selectFromVec
  cases env.defaultDevice <;> simp only [] <;> try simp
  split <;> simp

theorem fromVec_ne_panic {α : Type} (env : Env) (fid : Nat) (d : List α) (s : List Nat) :
    fromVec env fid d s ≠ RResult.panic := by
  unfold fromVec
  split
  · simp
  · cases hsel : selectFromVec env fid with
    | ok b => simp
    | err e => simp
    | panic => exact absurd hsel (selectFromVec_ne_panic env fid)

/-- C1 (amended): every Tensor returned Ok by from_vec, by new on
rectangular input (all rows the length of the first), or by any of the
public operations including deserialize, satisfies
len(data) = product(shape); and from_vec with a mismatched buffer fails
with InvalidDataLength carrying the expected and actual lengths.  The
restriction of new to rectangular input is forced by the ragged-input
counterexample. -/
theorem C1_length_invariant {α : Type} (F : FOps α) (env : Env) (fid : Nat) :
    (∀ (d : List α) s u, fromVec env fid d s = RResult.ok u → tensorInv u) ∧
    (∀ (d : List α) s, d.length ≠ s.prod →
      fromVec env fid d s =
        RResult.err (MlError.TensorError (TensorError.InvalidDataLength s.prod d.length))) ∧
    (∀ (r0 : List α) rs u, (∀ r ∈ r0 :: rs, r.length = r0.length) →
      newT env fid (r0 :: rs) = RResult.ok u → tensorInv u) ∧
    (∀ a b u, matmulT F env fid a b = RResult.ok u → tensorInv u) ∧
    (∀ t u, transposeT F env fid t = RResult.ok u → tensorInv u) ∧
    (∀ a b u, addT F env fid a b = RResult.ok u → tensorInv u) ∧
    (∀ a b u, subT F env fid a b = RResult.ok u → tensorInv u) ∧
    (∀ a b u, mulT F env fid a b = RResult.ok u → tensorInv u) ∧
    (∀ a b u, divT F env fid a b = RResult.ok u → tensorInv u) ∧
    (∀ t s u, mulScalarT F env fid t s = RResult.ok u → tensorInv u) ∧
    (∀ t s u, addScalarT F env fid t s = RResult.ok u → tensorInv u) ∧
    (∀ t lo hi u, clipT F env fid t lo hi = RResult.ok u → tensorInv u) ∧
    (∀ t u, logT F env fid t = RResult.ok u → tensorInv u) ∧
    (∀ t u, negT F env fid t = RResult.ok u → tensorInv u) ∧
    (∀ t u, expT F env fid t = RResult.ok u → tensorInv u) ∧
    (∀ t p u, powT F env fid t p = RResult.ok u → tensorInv u) ∧
    (∀ t u, sqrtT F env fid t = RResult.ok u → tensorInv u) ∧
    (∀ (t : Tensor α) s u, reshapeT t s = RResult.ok u → tensorInv u) ∧
    (∀ t ax u, sumT F env fid t ax = RResult.ok u → tensorInv u) ∧
    (∀ t ax u, maxAlongAxisT F env fid t ax = RResult.ok u → tensorInv u) ∧
    (∀ bytes u, deserializeT env fid bytes = RResult.ok u → tensorInv u) := by
  refine ⟨?_, ?_, ?_, ?_, ?_, ?_, ?_, ?_, ?_, ?_, ?_, ?_, ?_, ?_, ?_, ?_, ?_, ?_, ?_, ?_, ?_⟩
  · intro d s u h
    exact fromVec_ok_inv h
  · intro d s hne
    unfold fromVec
    rw [if_pos hne]
  · intro r0 rs u hrect h
    unfold newT at h
    cases h
    show ((r0 :: rs).flatten).length = ([(r0 :: rs).length, r0.length] : List Nat).prod
    rw [flatten_length_rect (r0 :: rs) r0.length hrect]
    simp
  · intro a b u h
    unfold matmulT at h
    split at h
    · simp at h
    · split at h
      · simp at h
      · split at h
        · simp at h
        · exact fromVec_ok_inv h
  · intro t u h
    unfold transposeT at h
    split at h
    · simp at h
    · split at h
      · simp at h
      · exact fromVec_ok_inv h
  · intro a b u h
    unfold addT at h
    split at h
    · split at h
      · simp at h
      · split at h
        · simp at h
        · exact fromVec_ok_inv h
    · split at h
      · simp at h
      · exact fromVec_ok_inv h
  · intro a b u h
    unfold subT at h
    split at h
    · split at h
      · simp at h
      · exact fromVec_ok_inv h
    · split at h
      · simp at h
      · exact fromVec_ok_inv h
  · intro a b u h
    unfold mulT at h
    split at h
    · simp at h
    · exact fromVec_ok_inv h
  · intro a b u h
    unfold divT at h
    split at h
    · simp at h
    · exact fromVec_ok_inv h
  · intro t s u h
    exact fromVec_ok_inv h
  · intro t s u h
    exact fromVec_ok_inv h
  · intro t lo hi u h
    exact fromVec_ok_inv h
  · intro t u h
    exact fromVec_ok_inv h
  · intro t u h
    exact fromVec_ok_inv h
  · intro t u h
    exact fromVec_ok_inv h
  · intro t p u h
    exact fromVec_ok_inv h
  · intro t u h
    exact fromVec_ok_inv h
  · intro t s u h
    unfold reshapeT at h
    split at h
    · simp at h
    · next hpe =>
        cases h
        push_neg at hpe
        show t.data.length = s.prod
        omega
  · intro t ax u h
    unfold sumT at h
    split at h
    · simp at h
    · split at h
      · simp at h
      · split at h
        · exact fromVec_ok_inv h
        · split at h
          · simp at h
          · exact fromVec_ok_inv h
        · simp at h
  · intro t ax u h
    unfold maxAlongAxisT at h
    split at h
    · simp at h
    · split at h
      · simp at h
      · split at h
        · exact fromVec_ok_inv h
        · exact fromVec_ok_inv h
        · simp at h
  · intro bytes u h
    unfold deserializeT at h
    split at h
    · simp at h
    · split at h
      · simp at h
      · exact fromVec_ok_inv h

/-- C1 witness: the invariant conjuncts applied at concrete inputs. -/
theorem C1_length_invariant_witness :
    tensorInv (⟨[1, 2], [2, 1], ⟨DeviceType.Cpu, 0⟩⟩ : Tensor Int) ∧
    fromVec (α := Int) envCpu 0 [1, 2] [3] =
      RResult.err (MlError.TensorError (TensorError.InvalidDataLength 3 2)) := by
  constructor
  · exact (C1_length_invariant FInt envCpu 0).1 [1, 2] [2, 1]
      ⟨[1, 2], [2, 1], ⟨DeviceType.Cpu, 0⟩⟩ (by decide)
  · exact (C1_length_invariant FInt envCpu 0).2.1 [1, 2] [3] (by decide)

/-- C1 counterexample: Tensor::new on ragged rows returns Ok a tensor with
3 data elements but inferred shape [2, 2], so the claimed invariant fails
for the new constructor. -/
theorem C1_ragged_new_counterexample :
    newT (α := Int) envCpu 0 [[1, 2], [3]] =
      RResult.ok ⟨[1, 2, 3], [2, 2], ⟨DeviceType.Cpu, 0⟩⟩ ∧
    ¬ tensorInv (⟨[1, 2, 3], [2, 2], ⟨DeviceType.Cpu, 0⟩⟩ : Tensor Int) := by
  constructor
  · decide
  · decide

/-- C2: evaluation of the code at the failing configuration.  When the
resolved default device is Vulkan and the VulkanBackend constructor
fails, Tensor::from_vec propagates the construction error instead of
falling back to the CPU backend, while Tensor::new does fall back and
succeeds in the same environment. -/
theorem C2_from_vec_propagates_backend_failure :
    fromVec (α := Int) envVulkanBad 0 [1] [1] =
      RResult.err (MlError.BackendError "vulkan backend construction failed") ∧
    newT (α := Int) envVulkanBad 0 [[1]] =
      RResult.ok ⟨[1], [1, 1], ⟨DeviceType.Cpu, 0⟩⟩ := by
  constructor
  · decide
  · decide

/-- C3 counterexample: a matmul on a tensor holding backend allocation 0
returns Ok a tensor holding the freshly constructed allocation 1, so a
derived tensor does not hold the same shared backend handle as its
operand. -/
theorem C3_fresh_backend_counterexample :
    matmulT FInt envCpu 1 ⟨[1, 2, 3, 4], [2, 2], ⟨DeviceType.Cpu, 0⟩⟩
      ⟨[1, 2, 3, 4], [2, 2], ⟨DeviceType.Cpu, 0⟩⟩ =
      RResult.ok ⟨[7, 10, 15, 22], [2, 2], ⟨DeviceType.Cpu, 1⟩⟩ ∧
    (⟨DeviceType.Cpu, 1⟩ : BackendHandle) ≠ ⟨DeviceType.Cpu, 0⟩ := by
  constructor
  · decide
  · decide

/-- C3 (amended): only reshape passes the receiver's backend handle to
its result; every other operation builds its result through from_vec,
which re-runs backend selection and hands the result the freshly
constructed handle. -/
theorem C3_backend_handle_amended {α : Type} (F : FOps α) (env : Env) (fid : Nat) :
    (∀ (t : Tensor α) s u, reshapeT t s = RResult.ok u → u.backend = t.backend) ∧
    (∀ a b u, matmulT F env fid a b = RResult.ok u →
      selectFromVec env fid = RResult.ok u.backend) ∧
    (∀ t u, transposeT F env fid t = RResult.ok u →
      selectFromVec env fid = RResult.ok u.backend) ∧
    (∀ a b u, addT F env fid a b = RResult.ok u →
      selectFromVec env fid = RResult.ok u.backend) ∧
    (∀ a b u, subT F env fid a b = RResult.ok u →
      selectFromVec env fid = RResult.ok u.backend) ∧
    (∀ a b u, mulT F env fid a b = RResult.ok u →
      selectFromVec env fid = RResult.ok u.backend) ∧
    (∀ a b u, divT F env fid a b = RResult.ok u →
      selectFromVec env fid = RResult.ok u.backend) ∧
    (∀ t s u, mulScalarT F env fid t s = RResult.ok u →
      selectFromVec env fid = RResult.ok u.backend) ∧
    (∀ t s u, addScalarT F env fid t s = RResult.ok u →
      selectFromVec env fid = RResult.ok u.backend) ∧
    (∀ t lo hi u, clipT F env fid t lo hi = RResult.ok u →
      selectFromVec env fid = RResult.ok u.backend) ∧
    (∀ t u, logT F env fid t = RResult.ok u →
      selectFromVec env fid = RResult.ok u.backend) ∧
    (∀ t u, negT F env fid t = RResult.ok u →
      selectFromVec env fid = RResult.ok u.backend) ∧
    (∀ t u, expT F env fid t = RResult.ok u →
      selectFromVec env fid = RResult.ok u.backend) ∧
    (∀ t p u, powT F env fid t p = RResult.ok u →
      selectFromVec env fid = RResult.ok u.backend) ∧
    (∀ t u, sqrtT F env fid t = RResult.ok u →
      selectFromVec env fid = RResult.ok u.backend) := by
  refine ⟨?_, ?_, ?_, ?_, ?_, ?_, ?_, ?_, ?_, ?_, ?_, ?_, ?_, ?_, ?_⟩
  · intro t s u h
    unfold reshapeT at h
    split at h
    · simp at h
    · cases h; rfl
  · intro a b u h
    unfold matmulT at h
    split at h
    · simp at h
    · split at h
      · simp at h
      · split at h
        · simp at h
        · exact (fromVec_ok_spec h).2.2.2
  · intro t u h
    unfold transposeT at h
    split at h
    · simp at h
    · split at h
      · simp at h
      · exact (fromVec_ok_spec h).2.2.2
  · intro a b u h
    unfold addT at h
    split at h
    · split at h
      · simp at h
      · split at h
        · simp at h
        · exact (fromVec_ok_spec h).2.2.2
    · split at h
      · simp at h
      · exact (fromVec_ok_spec h).2.2.2
  · intro a b u h
    unfold subT at h
    split at h
    · split at h
      · simp at h
      · exact (fromVec_ok_spec h).2.2.2
    · split at h
      · simp at h
      · exact (fromVec_ok_spec h).2.2.2
  · intro a b u h
    unfold mulT at h
    split at h
    · simp at h
    · exact (fromVec_ok_spec h).2.2.2
  · intro a b u h
    unfold divT at h
    split at h
    · simp at h
    · exact (fromVec_ok_spec h).2.2.2
  · intro t s u h
    exact (fromVec_ok_spec h).2.2.2
  · intro t s u h
    exact (fromVec_ok_spec h).2.2.2
  · intro t lo hi u h
    exact (fromVec_ok_spec h).2.2.2
  · intro t u h
    exact (fromVec_ok_spec h).2.2.2
  · intro t u h
    exact (fromVec_ok_spec h).2.2.2
  · intro t u h
    exact (fromVec_ok_spec h).2.2.2
  · intro t p u h
    exact (fromVec_ok_spec h).2.2.2
  · intro t u h
    exact (fromVec_ok_spec h).2.2.2

/-- C3 witness: the reshape conjunct and the matmul conjunct applied at
concrete inputs. -/
theorem C3_backend_handle_witness :
    (⟨[1, 2, 3, 4], [4], ⟨DeviceType.Cpu, 7⟩⟩ : Tensor Int).backend =
      (⟨[1, 2, 3, 4], [2, 2], ⟨DeviceType.Cpu, 7⟩⟩ : Tensor Int).backend ∧
    selectFromVec envCpu 1 =
      RResult.ok (⟨[7, 10, 15, 22], [2, 2], ⟨DeviceType.Cpu, 1⟩⟩ : Tensor Int).backend := by
  constructor
  · exact (C3_backend_handle_amended FInt envCpu 0).1
      ⟨[1, 2, 3, 4], [2, 2], ⟨DeviceType.Cpu, 7⟩⟩ [4]
      ⟨[1, 2, 3, 4], [4], ⟨DeviceType.Cpu, 7⟩⟩ (by decide)
  · exact (C3_backend_handle_amended FInt envCpu 1).2.1
      ⟨[1, 2, 3, 4], [2, 2], ⟨DeviceType.Cpu, 0⟩⟩
      ⟨[1, 2, 3, 4], [2, 2], ⟨DeviceType.Cpu, 0⟩⟩
      ⟨[7, 10, 15, 22], [2, 2], ⟨DeviceType.Cpu, 1⟩⟩ (by decide)

/-- C5 counterexample: matmul accepts a 3-D lhs.  With lhs of shape
[2, 2, 2] and rhs of shape [2, 2] the inner-dimension comparison
shape[1] == shape[0] passes and the call returns Ok a [2, 2] tensor
instead of failing with a MatrixMultiplicationError. -/
theorem C5_matmul_rank_counterexample :
    matmulT FInt envCpu 1 ⟨[1, 1, 1, 1, 1, 1, 1, 1], [2, 2, 2], ⟨DeviceType.Cpu, 0⟩⟩
      ⟨[1, 2, 3, 4], [2, 2], ⟨DeviceType.Cpu, 0⟩⟩ =
      RResult.ok ⟨[4, 6, 4, 6], [2, 2], ⟨DeviceType.Cpu, 1⟩⟩ := by decide

/-- C5 (amended): matmul checks only that lhs.shape[1] equals
rhs.shape[0]; it performs no rank check (rank below the indexed positions
panics, and higher rank is accepted as if 2-D).  On mismatch it fails
with a MatrixMultiplicationError carrying both operand shapes, and when
the comparison passes (and the rhs has rank at least 2) it returns a
tensor of shape [lhs.shape[0], rhs.shape[1]]. -/
theorem C5_matmul_amended {α : Type} (F : FOps α) (env : Env) (fid : Nat) :
    (∀ a b : Tensor α, 2 ≤ a.shape.length → 1 ≤ b.shape.length →
      a.shape.getD 1 0 ≠ b.shape.getD 0 0 →
      matmulT F env fid a b =
        RResult.err (MlError.TensorError
          (TensorError.MatrixMultiplicationError a.shape b.shape))) ∧
    (∀ a b : Tensor α, 2 ≤ a.shape.length → 2 ≤ b.shape.length →
      a.shape.getD 1 0 = b.shape.getD 0 0 → fromVecSucceeds env = true →
      matmulT F env fid a b =
        RResult.ok ⟨backendMatmul F a.data b.data (a.shape.getD 0 0) (a.shape.getD 1 0)
            (b.shape.getD 1 0),
          [a.shape.getD 0 0, b.shape.getD 1 0], fromVecHandle env fid⟩) ∧
    (∀ a b : Tensor α, a.shape.length < 2 → matmulT F env fid a b = RResult.panic) := by
  refine ⟨?_, ?_, ?_⟩
  · intro a b ha hb hne
    unfold matmulT
    rw [if_neg (by omega)]
    rw [if_pos hne]
  · intro a b ha hb heq henv
    unfold matmulT
    rw [if_neg (by omega)]
    rw [if_neg (not_not_intro heq)]
    rw [if_neg (by omega)]
    exact fromVec_complete env fid _ _ (by simp [backendMatmul]) henv
  · intro a b ha
    unfold matmulT
    rw [if_pos (Or.inl ha)]

/-- C5 witness: the amended mismatch and success conjuncts applied at
concrete inputs. -/
theorem C5_matmul_witness :
    matmulT FInt envCpu 0 ⟨[1, 2, 3, 4, 5, 6], [2, 3], ⟨DeviceType.Cpu, 0⟩⟩
      ⟨[1, 2, 3, 4], [2, 2], ⟨DeviceType.Cpu, 0⟩⟩ =
      RResult.err (MlError.TensorError
        (TensorError.MatrixMultiplicationError [2, 3] [2, 2])) ∧
    matmulT FInt envCpu 0 ⟨[1, 2, 3, 4], [2, 2], ⟨DeviceType.Cpu, 0⟩⟩
      ⟨[5, 6, 7, 8], [2, 2], ⟨DeviceType.Cpu, 0⟩⟩ =
      RResult.ok ⟨backendMatmul FInt [1, 2, 3, 4] [5, 6, 7, 8] 2 2 2, [2, 2],
        fromVecHandle envCpu 0⟩ := by
  constructor
  · exact (C5_matmul_amended FInt envCpu 0).1
      ⟨[1, 2, 3, 4, 5, 6], [2, 3], ⟨DeviceType.Cpu, 0⟩⟩
      ⟨[1, 2, 3, 4], [2, 2], ⟨DeviceType.Cpu, 0⟩⟩
      (by decide) (by decide) (by decide)
  · exact (C5_matmul_amended FInt envCpu 0).2.1
      ⟨[1, 2, 3, 4], [2, 2], ⟨DeviceType.Cpu, 0⟩⟩
      ⟨[5, 6, 7, 8], [2, 2], ⟨DeviceType.Cpu, 0⟩⟩
      (by decide) (by decide) (by decide) (by decide)

/-- C7: evaluation of the code at the malformed inputs.  Tensor::new
panics on an empty outer vector (it indexes data[0]) and, on ragged rows,
returns Ok a tensor whose flattened data length 3 disagrees with the
inferred shape [2, 2] — in both cases no typed error is produced. -/
theorem C7_malformed_new_evaluation :
    newT (α := Int) envCpu 0 [] = RResult.panic ∧
    newT (α := Int) envCpu 0 [[1, 2], [3]] =
      RResult.ok ⟨[1, 2, 3], [2, 2], ⟨DeviceType.Cpu, 0⟩⟩ ∧
    ¬ tensorInv (⟨[1, 2, 3], [2, 2], ⟨DeviceType.Cpu, 0⟩⟩ : Tensor Int) := by
  refine ⟨?_, ?_, ?_⟩
  · decide
  · decide
  · decide

/-- C8: transpose rejects any tensor whose rank is not 2 with
InvalidShape{expected: [2], got: shape}, and on a 2-D tensor satisfying
the length invariant (in an environment where from_vec can construct its
backend) transposing twice reproduces the original shape and data. -/
theorem C8_transpose_self_inverse {α : Type} (F : FOps α) (env : Env) (fid fid2 : Nat) :
    (∀ t : Tensor α, t.shape.length ≠ 2 →
      transposeT F env fid t =
        RResult.err (MlError.TensorError (TensorError.InvalidShape [2] t.shape))) ∧
    (∀ (t : Tensor α) (m n : Nat), t.shape = [m, n] → t.data.length = m * n →
      fromVecSucceeds env = true →
      ∃ u v, transposeT F env fid t = RResult.ok u ∧
        transposeT F env fid2 u = RResult.ok v ∧
        v.shape = t.shape ∧ v.data = t.data) := by
  constructor
  · intro t ht
    unfold transposeT
    rw [if_pos ht]
  · intro t m n hs hd henv
    have hg0 : t.shape.getD 0 0 = m := by rw [hs]; rfl
    have hg1 : t.shape.getD 1 0 = n := by rw [hs]; rfl
    refine ⟨⟨transData F.zero t.data m n, [n, m], fromVecHandle env fid⟩,
      ⟨transData F.zero (transData F.zero t.data m n) n m, [m, n], fromVecHandle env fid2⟩,
      ?_, ?_, ?_, ?_⟩
    · unfold transposeT
      rw [if_neg (by rw [hs]; simp)]
      rw [hg0, hg1]
      rw [if_neg (by rw [hd, Nat.mul_comm]; omega)]
      exact fromVec_complete env fid _ _ (by simp [transData_length, hd, Nat.mul_comm]) henv
    · unfold transposeT
      simp only []
      rw [if_neg (by simp)]
      have hlen : (transData F.zero t.data m n).length = m * n := by
        rw [transData_length, hd]
      rw [show (([n, m] : List Nat).getD 0 0) = n from rfl,
        show (([n, m] : List Nat).getD 1 0) = m from rfl]
      rw [if_neg (by rw [hlen]; omega)]
      exact fromVec_complete env fid2 _ _
        (by simp [transData_length, hlen]) henv
    · rw [hs]
    · exact transData_transData F.zero t.data m n hd

/-- C8 witness: both conjuncts applied at concrete inputs. -/
theorem C8_transpose_witness :
    transposeT FInt envCpu 0 (⟨[1, 2], [2], ⟨DeviceType.Cpu, 0⟩⟩ : Tensor Int) =
      RResult.err (MlError.TensorError (TensorError.InvalidShape [2] [2])) ∧
    ∃ u v, transposeT FInt envCpu 1 ⟨[1, 2, 3, 4, 5, 6], [2, 3], ⟨DeviceType.Cpu, 0⟩⟩ =
        RResult.ok u ∧
      transposeT FInt envCpu 2 u = RResult.ok v ∧
      v.shape = ([2, 3] : List Nat) ∧ v.data = ([1, 2, 3, 4, 5, 6] : List Int) := by
  constructor
  · exact (C8_transpose_self_inverse FInt envCpu 0 0).1
      ⟨[1, 2], [2], ⟨DeviceType.Cpu, 0⟩⟩ (by decide)
  · exact (C8_transpose_self_inverse FInt envCpu 1 2).2
      ⟨[1, 2, 3, 4, 5, 6], [2, 3], ⟨DeviceType.Cpu, 0⟩⟩ 2 3 rfl (by decide) (by decide)

/-- C6 counterexample: add with lhs shape [1, 0] and rhs shape [0] takes
the broadcast branch and panics (result.chunks_mut(0) with chunk size 0),
instead of producing the claimed result of lhs's shape. -/
theorem C6_broadcast_zero_counterexample :
    addT FInt envCpu 0 (⟨[], [1, 0], ⟨DeviceType.Cpu, 0⟩⟩ : Tensor Int)
      ⟨[], [0], ⟨DeviceType.Cpu, 0⟩⟩ = RResult.panic := by decide

/-- C6 (amended): add and sub accept exactly equal shapes (elementwise,
result of the same shape) or lhs 2-D [batch, features] with rhs 1-D
[features], where the result keeps lhs's shape and position i*features+j
holds lhs[i][j] op rhs[j]; any other shape pair is InvalidShape carrying
both shapes.  Amendment forced by the counterexample: in the broadcast
case add requires features to be nonzero — with features = 0 it panics
on chunks_mut(0) — while sub handles features = 0. -/
theorem C6_add_sub_shapes {α : Type} (F : FOps α) (env : Env) (fid : Nat) :
    (∀ a b : Tensor α, a.shape = b.shape →
      a.data.length = a.shape.prod → b.data.length = b.shape.prod →
      fromVecSucceeds env = true →
      addT F env fid a b =
        RResult.ok ⟨backendZip F.add a.data b.data, a.shape, fromVecHandle env fid⟩ ∧
      subT F env fid a b =
        RResult.ok ⟨backendZip F.sub a.data b.data, a.shape, fromVecHandle env fid⟩) ∧
    (∀ (a b : Tensor α) (batch f : Nat), a.shape = [batch, f] → b.shape = [f] →
      1 ≤ f → a.data.length = batch * f → b.data.length = f →
      fromVecSucceeds env = true →
      ∃ u, addT F env fid a b = RResult.ok u ∧ u.shape = a.shape ∧
        u.data.length = a.data.length ∧
        ∀ i j, i < batch → j < f →
          u.data.getD (i * f + j) F.zero =
            F.add (a.data.getD (i * f + j) F.zero) (b.data.getD j F.zero)) ∧
    (∀ (a b : Tensor α) (batch f : Nat), a.shape = [batch, f] → b.shape = [f] →
      a.data.length = batch * f → b.data.length = f →
      fromVecSucceeds env = true →
      ∃ u, subT F env fid a b = RResult.ok u ∧ u.shape = a.shape ∧
        u.data.length = a.data.length ∧
        ∀ i j, i < batch → j < f →
          u.data.getD (i * f + j) F.zero =
            F.sub (a.data.getD (i * f + j) F.zero) (b.data.getD j F.zero)) ∧
    (∀ a b : Tensor α,
      ¬(a.shape.length = 2 ∧ b.shape.length = 1 ∧ a.shape.getD 1 0 = b.shape.getD 0 0) →
      a.shape ≠ b.shape →
      addT F env fid a b =
        RResult.err (MlError.TensorError (TensorError.InvalidShape a.shape b.shape)) ∧
      subT F env fid a b =
        RResult.err (MlError.TensorError (TensorError.InvalidShape a.shape b.shape))) ∧
    (∀ (a b : Tensor α) (batch : Nat), a.shape = [batch, 0] → b.shape = [0] →
      addT F env fid a b = RResult.panic) ∧
    (∀ (a b : Tensor α) (batch : Nat), a.shape = [batch, 0] → b.shape = [0] →
      a.data.length = 0 → fromVecSucceeds env = true →
      subT F env fid a b = RResult.ok ⟨[], a.shape, fromVecHandle env fid⟩) := by
  refine ⟨?_, ?_, ?_, ?_, ?_, ?_⟩
  · intro a b hs ha hb henv
    have hncond : ¬(a.shape.length = 2 ∧ b.shape.length = 1 ∧
        a.shape.getD 1 0 = b.shape.getD 0 0) := by
      rintro ⟨h2, h1, _⟩
      rw [hs, h1] at h2
      exact absurd h2 (by omega)
    have hlen : (List.zipWith F.add a.data b.data).length = a.shape.prod := by
      rw [List.length_zipWith, ha, hb, hs, Nat.min_self]
    have hlen2 : (List.zipWith F.sub a.data b.data).length = a.shape.prod := by
      rw [List.length_zipWith, ha, hb, hs, Nat.min_self]
    constructor
    · unfold addT
      rw [if_neg hncond, if_neg (not_not_intro hs)]
      exact fromVec_complete env fid _ _ hlen henv
    · unfold subT
      rw [if_neg hncond, if_neg (not_not_intro hs)]
      exact fromVec_complete env fid _ _ hlen2 henv
  · intro a b batch f hsa hsb hf ha hb henv
    have hg1 : a.shape.getD 1 0 = f := by rw [hsa]; rfl
    have hg0 : a.shape.getD 0 0 = batch := by rw [hsa]; rfl
    have hgb : b.shape.getD 0 0 = f := by rw [hsb]; rfl
    have hcond : a.shape.length = 2 ∧ b.shape.length = 1 ∧
        a.shape.getD 1 0 = b.shape.getD 0 0 := by
      refine ⟨by rw [hsa]; rfl, by rw [hsb]; rfl, by rw [hg1, hgb]⟩
    refine ⟨⟨(List.range a.data.length).map fun p =>
        F.add (a.data.getD p F.zero) (b.data.getD (p % a.shape.getD 1 0) F.zero),
      a.shape, fromVecHandle env fid⟩, ?_, rfl, by simp, ?_⟩
    · unfold addT
      rw [if_pos hcond]
      rw [if_neg (by rw [hg1]; omega)]
      rw [if_neg (by
        rintro ⟨hpos, hmin⟩
        rw [hg1, hb] at hmin
        exact absurd hmin (by exact Nat.not_lt.mpr (Nat.min_le_left f a.data.length)))]
      exact fromVec_complete env fid _ _
        (by rw [List.length_map, List.length_range, ha, hsa]; simp) henv
    · intro i j hi hj
      have hidx : i * f + j < a.data.length := by
        rw [ha]
        calc i * f + j < i * f + f := by omega
        _ = (i + 1) * f := by ring
        _ ≤ batch * f := Nat.mul_le_mul_right f (by omega)
      rw [getD_map_range, if_pos hidx, hg1]
      have : (i * f + j) % f = j := by
        rw [Nat.mul_comm i f, Nat.mul_add_mod]
        exact Nat.mod_eq_of_lt hj
      rw [this]
  · intro a b batch f hsa hsb ha hb henv
    have hg1 : a.shape.getD 1 0 = f := by rw [hsa]; rfl
    have hg0 : a.shape.getD 0 0 = batch := by rw [hsa]; rfl
    have hgb : b.shape.getD 0 0 = f := by rw [hsb]; rfl
    have hcond : a.shape.length = 2 ∧ b.shape.length = 1 ∧
        a.shape.getD 1 0 = b.shape.getD 0 0 := by
      refine ⟨by rw [hsa]; rfl, by rw [hsb]; rfl, by rw [hg1, hgb]⟩
    refine ⟨⟨(List.range a.data.length).map fun p =>
        if p < a.shape.getD 0 0 * a.shape.getD 1 0 then
          F.sub (a.data.getD p F.zero) (b.data.getD (p % a.shape.getD 1 0) F.zero)
        else F.zero,
      a.shape, fromVecHandle env fid⟩, ?_, rfl, by simp, ?_⟩
    · unfold subT
      rw [if_pos hcond]
      rw [if_neg (by
        rintro ⟨hpos, hbad⟩
        rw [hg0, hg1] at hbad
        rcases hbad with hbad | hbad
        · rw [ha] at hbad; omega
        · rw [hb] at hbad; omega)]
      exact fromVec_complete env fid _ _
        (by rw [List.length_map, List.length_range, ha, hsa]; simp) henv
    · intro i j hi hj
      have hidx : i * f + j < a.data.length := by
        rw [ha]
        calc i * f + j < i * f + f := by omega
        _ = (i + 1) * f := by ring
        _ ≤ batch * f := Nat.mul_le_mul_right f (by omega)
      rw [getD_map_range, if_pos hidx, hg0, hg1]
      rw [if_pos (by rw [← ha]; exact hidx)]
      have : (i * f + j) % f = j := by
        rw [Nat.mul_comm i f, Nat.mul_add_mod]
        exact Nat.mod_eq_of_lt hj
      rw [this]
  · intro a b hnb hne
    constructor
    · unfold addT
      rw [if_neg hnb, if_pos hne]
    · unfold subT
      rw [if_neg hnb, if_pos hne]
  · intro a b batch hsa hsb
    unfold addT
    rw [if_pos ⟨by rw [hsa]; rfl, by rw [hsb]; rfl, by rw [hsa, hsb]; rfl⟩]
    rw [if_pos (by rw [hsa]; rfl)]
  · intro a b batch hsa hsb ha henv
    unfold subT
    rw [if_pos ⟨by rw [hsa]; rfl, by rw [hsb]; rfl, by rw [hsa, hsb]; rfl⟩]
    rw [if_neg (by
      rintro ⟨hpos, _⟩
      rw [hsa] at hpos
      simp at hpos)]
    have hmap : ((List.range a.data.length).map fun p =>
        if p < a.shape.getD 0 0 * a.shape.getD 1 0 then
          F.sub (a.data.getD p F.zero) (b.data.getD (p % a.shape.getD 1 0) F.zero)
        else F.zero) = ([] : List α) := by
      rw [ha]
      rfl
    rw [hmap]
    exact fromVec_complete env fid [] a.shape (by rw [hsa]; simp) henv

/-- C6 witness: the equal-shape, broadcast, error and zero-features
conjuncts applied at
concrete inputs. -/
theorem C6_add_sub_witness :
    addT FInt envCpu 0 ⟨[1, 2], [2], ⟨DeviceType.Cpu, 0⟩⟩
      ⟨[3, 4], [2], ⟨DeviceType.Cpu, 0⟩⟩ =
      RResult.ok ⟨backendZip FInt.add [1, 2] [3, 4], [2], fromVecHandle envCpu 0⟩ ∧
    (∃ u, addT FInt envCpu 0 ⟨[1, 2, 3, 4], [2, 2], ⟨DeviceType.Cpu, 0⟩⟩
        ⟨[10, 20], [2], ⟨DeviceType.Cpu, 0⟩⟩ = RResult.ok u ∧
      u.shape = ([2, 2] : List Nat) ∧ u.data.length = 4 ∧
      ∀ i j, i < 2 → j < 2 →
        u.data.getD (i * 2 + j) FInt.zero =
          FInt.add (([1, 2, 3, 4] : List Int).getD (i * 2 + j) FInt.zero)
            (([10, 20] : List Int).getD j FInt.zero)) ∧
    addT FInt envCpu 0 ⟨[1, 2], [2], ⟨DeviceType.Cpu, 0⟩⟩
      ⟨[1, 2, 3], [3], ⟨DeviceType.Cpu, 0⟩⟩ =
      RResult.err (MlError.TensorError (TensorError.InvalidShape [2] [3])) ∧
    subT FInt envCpu 0 (⟨[], [3, 0], ⟨DeviceType.Cpu, 0⟩⟩ : Tensor Int)
      ⟨[], [0], ⟨DeviceType.Cpu, 0⟩⟩ =
      RResult.ok ⟨[], [3, 0], fromVecHandle envCpu 0⟩ := by
  refine ⟨?_, ?_, ?_, ?_⟩
  · exact ((C6_add_sub_shapes FInt envCpu 0).1 ⟨[1, 2], [2], ⟨DeviceType.Cpu, 0⟩⟩
      ⟨[3, 4], [2], ⟨DeviceType.Cpu, 0⟩⟩ rfl (by decide) (by decide) (by decide)).1
  · exact (C6_add_sub_shapes FInt envCpu 0).2.1
      ⟨[1, 2, 3, 4], [2, 2], ⟨DeviceType.Cpu, 0⟩⟩
      ⟨[10, 20], [2], ⟨DeviceType.Cpu, 0⟩⟩ 2 2 rfl rfl
      (by decide) (by decide) (by decide) (by decide)
  · exact ((C6_add_sub_shapes FInt envCpu 0).2.2.2.1 ⟨[1, 2], [2], ⟨DeviceType.Cpu, 0⟩⟩
      ⟨[1, 2, 3], [3], ⟨DeviceType.Cpu, 0⟩⟩ (by decide) (by decide)).1
  · exact (C6_add_sub_shapes FInt envCpu 0).2.2.2.2.2
      ⟨[], [3, 0], ⟨DeviceType.Cpu, 0⟩⟩ ⟨[], [0], ⟨DeviceType.Cpu, 0⟩⟩ 3 rfl rfl
      (by decide) (by decide)

theorem deserializeT_frame (env : Env) (fid : Nat) (shape rest : List Nat)
    (hdims : ∀ d ∈ shape, d < 4294967296) (hrank : shape.length < 4294967296) :
    deserializeT env fid (natToLe4 shape.length ++ ((shape.map natToLe4).flatten ++ rest)) =
      fromVec env fid (readWords rest) shape := by
  unfold deserializeT
  have h4 : (natToLe4 shape.length).length = 4 := natToLe4_length _
  rw [if_neg (by simp [natToLe4_length])]
  have htake : (natToLe4 shape.length ++ ((shape.map natToLe4).flatten ++ rest)).take 4 =
      natToLe4 shape.length := by
    rw [List.take_append_of_le_length (by rw [h4])]
    simp [natToLe4]
  have hdrop : (natToLe4 shape.length ++ ((shape.map natToLe4).flatten ++ rest)).drop 4 =
      (shape.map natToLe4).flatten ++ rest := by
    rw [List.drop_append_of_le_length (by rw [h4])]
    simp [natToLe4]
  rw [htake, hdrop, leToNat4_natToLe4 _ hrank, readShapeAux_flatten shape hdims rest]

/-- C4: the serialization round-trip.  For every tensor satisfying the
length invariant whose rank, dimensions and element bit patterns fit in
32 bits, deserializing its serialization succeeds (whenever from_vec can
construct its backend) and returns a tensor with identical shape and
identical element bit patterns, since each value passes through an
unmodified little-endian byte copy. -/
theorem C4_serialize_roundtrip (env : Env) (fid : Nat) (t : Tensor Nat)
    (hinv : t.data.length = t.shape.prod)
    (hdims : ∀ d ∈ t.shape, d < 4294967296)
    (hrank : t.shape.length < 4294967296)
    (hdata : ∀ x ∈ t.data, x < 4294967296)
    (henv : fromVecSucceeds env = true) :
    deserializeT env fid (serializeT t) =
      RResult.ok ⟨t.data, t.shape, fromVecHandle env fid⟩ := by
  unfold serializeT
  rw [List.append_assoc]
  rw [deserializeT_frame env fid t.shape _ hdims hrank]
  rw [readWords_flatten t.data hdata]
  exact fromVec_complete env fid _ _ hinv henv

/-- C4 witness: the round trip applied at a concrete tensor. -/
theorem C4_serialize_roundtrip_witness :
    deserializeT envCpu 1 (serializeT ⟨[77, 5, 4294967295], [3, 1], ⟨DeviceType.Cpu, 0⟩⟩) =
      RResult.ok ⟨[77, 5, 4294967295], [3, 1], fromVecHandle envCpu 1⟩ :=
  C4_serialize_roundtrip envCpu 1 ⟨[77, 5, 4294967295], [3, 1], ⟨DeviceType.Cpu, 0⟩⟩
    (by decide) (by decide) (by decide) (by decide) (by decide)

/-- C9: deserialize is total — it returns a decoding error on every byte
string shorter than 4 bytes, and on every byte string whose dimension
section is shorter than the 4*R bytes its header implies; it never
reaches the panic outcome. -/
theorem C9_deserialize_total (env : Env) (fid : Nat) :
    (∀ bytes : List Nat, bytes.length < 4 →
      deserializeT env fid bytes =
        RResult.err (MlError.StringError "Invalid tensor data")) ∧
    (∀ bytes : List Nat, 4 ≤ bytes.length →
      bytes.length < 4 + 4 * leToNat4 (bytes.take 4) →
      deserializeT env fid bytes =
        RResult.err (MlError.StringError "Invalid tensor data")) ∧
    (∀ bytes : List Nat, deserializeT env fid bytes ≠ RResult.panic) := by
  refine ⟨?_, ?_, ?_⟩
  · intro bytes h
    unfold deserializeT
    rw [if_pos h]
  · intro bytes h4 hlt
    unfold deserializeT
    rw [if_neg (by omega)]
    rw [readShapeAux_short _ _ (by simp only [List.length_drop]; omega)]
  · intro bytes
    unfold deserializeT
    split
    · simp
    · cases hr : readShapeAux (leToNat4 (bytes.take 4)) (bytes.drop 4) with
      | none => simp [hr]
      | some pr =>
          rcases pr with ⟨shape, rest⟩
          simp only [hr]
          exact fromVec_ne_panic env fid _ _

/-- C9 witness: both error conjuncts applied at concrete byte strings. -/
theorem C9_deserialize_total_witness :
    deserializeT envCpu 0 [1, 2, 3] =
      RResult.err (MlError.StringError "Invalid tensor data") ∧
    deserializeT envCpu 0 [2, 0, 0, 0, 9] =
      RResult.err (MlError.StringError "Invalid tensor data") := by
  constructor
  · exact (C9_deserialize_total envCpu 0).1 [1, 2, 3] (by decide)
  · exact (C9_deserialize_total envCpu 0).2.1 [2, 0, 0, 0, 9] (by decide) (by decide)

/-- C10: deserialize tolerates trailing garbage.  When the header and
dimension section parse and the remaining payload holds exactly
product(shape) complete 4-byte words followed by 1 to 3 extra bytes,
deserialization succeeds and returns exactly the tensor obtained from
the input without the extra bytes: the tail shorter than one word is
ignored, not rejected. -/
theorem C10_trailing_garbage (env : Env) (fid : Nat)
    (shape payload extra : List Nat)
    (hdims : ∀ d ∈ shape, d < 4294967296)
    (hrank : shape.length < 4294967296)
    (hpay : payload.length = 4 * shape.prod)
    (hex1 : 1 ≤ extra.length) (hex3 : extra.length ≤ 3)
    (henv : fromVecSucceeds env = true) :
    deserializeT env fid
        (natToLe4 shape.length ++ (shape.map natToLe4).flatten ++ payload ++ extra) =
      RResult.ok ⟨readWords payload, shape, fromVecHandle env fid⟩ ∧
    deserializeT env fid
        (natToLe4 shape.length ++ (shape.map natToLe4).flatten ++ payload) =
      RResult.ok ⟨readWords payload, shape, fromVecHandle env fid⟩ := by
  have hwlen : (readWords payload).length = shape.prod := by
    rw [readWords_length, hpay]
    omega
  constructor
  · rw [List.append_assoc, List.append_assoc, ← List.append_assoc
      ((shape.map natToLe4).flatten) payload extra]
    rw [show (shape.map natToLe4).flatten ++ payload ++ extra =
      (shape.map natToLe4).flatten ++ (payload ++ extra) from List.append_assoc _ _ _]
    rw [deserializeT_frame env fid shape _ hdims hrank]
    rw [readWords_append_small payload extra (by omega) (by omega)]
    exact fromVec_complete env fid _ _ hwlen henv
  · rw [List.append_assoc]
    rw [deserializeT_frame env fid shape _ hdims hrank]
    exact fromVec_complete env fid _ _ hwlen henv

/-- C10 witness: a one-element tensor payload followed by two garbage
bytes deserializes to the same tensor as without them. -/
theorem C10_trailing_garbage_witness :
    deserializeT envCpu 0
        (natToLe4 1 ++ ([1].map natToLe4).flatten ++ [9, 0, 0, 0] ++ [250, 251]) =
      RResult.ok ⟨readWords [9, 0, 0, 0], [1], fromVecHandle envCpu 0⟩ ∧
    deserializeT envCpu 0 (natToLe4 1 ++ ([1].map natToLe4).flatten ++ [9, 0, 0, 0]) =
      RResult.ok ⟨readWords [9, 0, 0, 0], [1], fromVecHandle envCpu 0⟩ :=
  C10_trailing_garbage envCpu 0 [1] [9, 0, 0, 0] [250, 251]
    (by decide) (by decide) (by decide) (by decide) (by decide) (by decide)

end Cetana
